import Mathlib

/-!
Verification of the domaincrafters std core (Optional container, Guard validator,
exception taxonomy) against its natural-language specification.  The TypeScript
sources are shallowly embedded: JavaScript runtime values are modelled by the
inductive type JSValue, thrown exceptions by JSError values returned through
Except, and each method of src/Guard.ts and the Optional source becomes a Lean
definition with the same branching structure.
-/

namespace DddStd

/-- Model of a JavaScript number as the library observes it: either NaN or an
integer value.  The Guard checks only compare numbers with integer literals and
with each other, so the integer fragment of the doubles is a faithful carrier. -/
inductive JSNum where
  | nan
  | int (i : Int)
deriving DecidableEq

/-- Model of the JavaScript values the library manipulates: the two absence
sentinels, primitives, arrays, plain objects (association list of properties),
functions (carrying their arity, which is their length property), symbols and
bigints. -/
inductive JSValue where
  | vUndefined
  | vNull
  | vBool (b : Bool)
  | vNum (n : JSNum)
  | vStr (s : String)
  | vArr (elems : List JSValue)
  | vObj (props : List (String × JSValue))
  | vFunc (arity : Nat)
  | vSymbol
  | vBigInt (i : Int)

/-- The exception taxonomy of src/Exception.ts plus the built-in kinds the code
can raise: plain Error (used by the Optional source) and TypeError (raised by
JSON.stringify on a bigint).  A user-defined subclass of Exception is modelled
by the custom constructor carrying its class name. -/
inductive ExceptionKind where
  | domain
  | illegalState
  | notFound
  | illegalArgument
  | custom (name : String)
  | plainError
  | typeError
deriving DecidableEq

/-- A raised JavaScript error: its class (kind) and its message. -/
structure JSError where
  kind : ExceptionKind
  message : String
deriving DecidableEq

/-- The typeof operator. -/
def typeofJS : JSValue → String
  | .vUndefined => "undefined"
  | .vNull => "object"
  | .vBool _ => "boolean"
  | .vNum _ => "number"
  | .vStr _ => "string"
  | .vArr _ => "object"
  | .vObj _ => "object"
  | .vFunc _ => "function"
  | .vSymbol => "symbol"
  | .vBigInt _ => "bigint"

/-- Array.isArray. -/
def isArrayJS : JSValue → Bool
  | .vArr _ => true
  | _ => false

/-- JavaScript truthiness of a value. -/
def jsTruthy : JSValue → Bool
  | .vUndefined => false
  | .vNull => false
  | .vBool b => b
  | .vNum .nan => false
  | .vNum (.int i) => i != 0
  | .vStr s => s != ""
  | .vArr _ => true
  | .vObj _ => true
  | .vFunc _ => true
  | .vSymbol => true
  | .vBigInt i => i != 0

/-- Property read as the Guard code performs it: strings, arrays and functions
expose a numeric length, object properties are looked up, every other access
yields undefined. -/
def getProp : JSValue → String → JSValue
  | .vStr s, "length" => .vNum (.int (s.length : Int))
  | .vArr xs, "length" => .vNum (.int (xs.length : Int))
  | .vFunc n, "length" => .vNum (.int (n : Int))
  | .vObj props, k =>
    match props.lookup k with
    | some v => v
    | none => .vUndefined
  | _, _ => .vUndefined

/-- Strict equality of a value with the number literal 0, as in value === 0. -/
def isNumZero : JSValue → Bool
  | .vNum (.int i) => i == 0
  | _ => false

/-- The JavaScript less-than on numbers: false whenever either side is NaN. -/
def jsNumLt : JSNum → JSNum → Bool
  | .nan, _ => false
  | _, .nan => false
  | .int a, .int b => decide (a < b)

/-- Template interpolation of a number, as in a template literal. -/
def numToString : JSNum → String
  | .nan => "NaN"
  | .int i => toString i

/-- The JavaScript expression x || dflt for an optional string x: the default
is used when x is absent or empty (the two falsy string cases). -/
def jsOrStr (x : Option String) (dflt : String) : String :=
  match x with
  | none => dflt
  | some s => if s = "" then dflt else s

/-- The white-space class stripped by the JavaScript trim method. -/
def jsWhitespace (c : Char) : Bool :=
  c = ' ' || c = '\t' || c = '\n' || c = '\r' || c = '\x0b' || c = '\x0c'

/-- The JavaScript trim method: strips white space from both ends. -/
def jsTrim (s : String) : String :=
  String.mk (((s.toList.dropWhile jsWhitespace).reverse.dropWhile jsWhitespace).reverse)

/-- Hexadecimal digit used by JSON control-character escapes. -/
def hexDigit (n : Nat) : Char :=
  if n < 10 then Char.ofNat (48 + n) else Char.ofNat (87 + n)

/-- JSON escaping of one character. -/
def escapeChar (c : Char) : String :=
  if c = '"' then "\\\""
  else if c = '\\' then "\\\\"
  else if c = '\n' then "\\n"
  else if c = '\r' then "\\r"
  else if c = '\t' then "\\t"
  else if c = '\x08' then "\\b"
  else if c = '\x0c' then "\\f"
  else if c.toNat < 32 then
    "\\u00" ++ String.mk [hexDigit (c.toNat / 16), hexDigit (c.toNat % 16)]
  else String.singleton c

/-- JSON serialization of a string, quotes included. -/
def jsonQuote (s : String) : String :=
  "\"" ++ String.join (s.toList.map escapeChar) ++ "\""

mutual

/-- JSON.stringify.  Returns ok none where stringify yields the value
undefined (for undefined, functions and symbols), ok (some s) for a produced
JSON text, and an error where stringify throws (bigint values). -/
def jsonStringify : JSValue → Except Unit (Option String)
  | .vUndefined => .ok none
  | .vNull => .ok (some "null")
  | .vBool b => .ok (some (if b then "true" else "false"))
  | .vNum .nan => .ok (some "null")
  | .vNum (.int i) => .ok (some (toString i))
  | .vStr s => .ok (some (jsonQuote s))
  | .vArr xs =>
    match jsonStringifyElems xs with
    | .error e => .error e
    | .ok parts => .ok (some ("[" ++ String.intercalate "," parts ++ "]"))
  | .vObj props =>
    match jsonStringifyProps props with
    | .error e => .error e
    | .ok parts => .ok (some ("\x7b" ++ String.intercalate "," parts ++ "\x7d"))
  | .vFunc _ => .ok none
  | .vSymbol => .ok none
  | .vBigInt _ => .error ()

/-- Array elements: a hole (undefined, function, symbol) serializes as null. -/
def jsonStringifyElems : List JSValue → Except Unit (List String)
  | [] => .ok []
  | x :: xs =>
    match jsonStringify x with
    | .error e => .error e
    | .ok o =>
      match jsonStringifyElems xs with
      | .error e => .error e
      | .ok rest => .ok (o.getD "null" :: rest)

/-- Object properties: a property whose value serializes to undefined is
dropped. -/
def jsonStringifyProps : List (String × JSValue) → Except Unit (List String)
  | [] => .ok []
  | (k, v) :: ps =>
    match jsonStringify v with
    | .error e => .error e
    | .ok o =>
      match jsonStringifyProps ps with
      | .error e => .error e
      | .ok rest =>
        match o with
        | none => .ok rest
        | some sv => .ok ((jsonQuote k ++ ":" ++ sv) :: rest)

end

/-- The token interpolated for a value inside the failure message template:
the JSON serialization, or the literal text undefined when stringify yields
the value undefined (template interpolation of undefined). -/
def actualToken (v : JSValue) : String :=
  match jsonStringify v with
  | .error _ => "undefined"
  | .ok o => o.getD "undefined"

/-- Proposition that JSON-serializing a value does not throw. -/
def stringifyOk (v : JSValue) : Prop :=
  ∃ o, jsonStringify v = Except.ok o

/-- The Optional container: its single private slot holds either the value or
the undefined sentinel marking absence (the TypeScript field is declared
optional, so constructing with no argument leaves it undefined). -/
structure Optional where
  _value : JSValue

/-- Optional.of: throws a plain Error on either absence sentinel, otherwise
wraps the value. -/
def Optional.of (value : JSValue) : Except JSError Optional :=
  match value with
  | .vUndefined => .error ⟨.plainError, "Cannot create Optional.of with undefined or null"⟩
  | .vNull => .error ⟨.plainError, "Cannot create Optional.of with undefined or null"⟩
  | v => .ok ⟨v⟩

/-- Optional.ofNullable: stores the given value unchanged, never fails. -/
def Optional.ofNullable (value : JSValue) : Optional :=
  ⟨value⟩

/-- Optional.empty: constructs with no argument, so the slot is undefined. -/
def Optional.empty : Optional :=
  ⟨.vUndefined⟩

/-- The value accessor: throws a plain Error when the slot is undefined,
otherwise returns the slot. -/
def Optional.value (o : Optional) : Except JSError JSValue :=
  match o._value with
  | .vUndefined => .error ⟨.plainError, "Value is not present"⟩
  | v => .ok v

/-- The isPresent accessor: the slot compared against undefined (and only
undefined, not null) with strict inequality. -/
def Optional.isPresent (o : Optional) : Bool :=
  match o._value with
  | .vUndefined => false
  | _ => true

/-- Optional.getOrElse: the nullish-coalescing operator, which falls back to
the default for both null and undefined. -/
def Optional.getOrElse (o : Optional) (defaultValue : JSValue) : JSValue :=
  match o._value with
  | .vUndefined => defaultValue
  | .vNull => defaultValue
  | v => v

/-- Optional.map: empty if the slot is undefined; otherwise applies the mapper
and returns empty when the result is undefined or null, else wraps the result
through Optional.of (whose throwing branch is unreachable there). -/
def Optional.map (o : Optional) (mapper : JSValue → JSValue) : Except JSError Optional :=
  match o._value with
  | .vUndefined => .ok Optional.empty
  | v =>
    match mapper v with
    | .vUndefined => .ok Optional.empty
    | .vNull => .ok Optional.empty
    | r => Optional.of r

/-- Modelled from the spec: Optional.getOrThrow is exercised by the test suite
but absent from every Optional variant in the sources; per the spec it returns
the held value if present and otherwise raises NotFoundException carrying the
given message. -/
def Optional.getOrThrow (o : Optional) (message : String) : Except JSError JSValue :=
  match o._value with
  | .vUndefined => .error ⟨.notFound, message⟩
  | v => .ok v

/-- A Guard: the bound value, the parameter name used in messages, and the
exception constructor invoked on failure, all fixed at construction. -/
structure Guard where
  value : JSValue
  parameterName : String
  exceptionType : ExceptionKind

/-- The Guard constructor: a missing exception constructor argument defaults
to IllegalArgumentException (constructors are always truthy, so the
JavaScript or-default only distinguishes present from absent). -/
def Guard.make (value : JSValue) (parameterName : String)
    (exceptionType : Option ExceptionKind) : Guard :=
  ⟨value, parameterName, exceptionType.getD .illegalArgument⟩

/-- Guard.check: the static factory; a missing or empty parameter name falls
back to the name value. -/
def Guard.check (value : JSValue) (parameterName : Option String)
    (exceptionType : Option ExceptionKind) : Guard :=
  Guard.make value (jsOrStr parameterName "value") exceptionType

/-- Guard.throwException: builds the raised error from the message template.
The template serializes the bound value with JSON.stringify first, so when
that serialization throws (bigint values) the TypeError propagates instead of
the configured exception. -/
def Guard.throwException (g : Guard) (message : String) : JSError :=
  match jsonStringify g.value with
  | .error _ => ⟨.typeError, "Do not know how to serialize a BigInt"⟩
  | .ok o => ⟨g.exceptionType, message ++ " Actual value: " ++ o.getD "undefined" ++ "."⟩

/-- Guard.againstNullOrUndefined. -/
def Guard.againstNullOrUndefined (g : Guard) (message : Option String) :
    Except JSError Guard :=
  match g.value with
  | .vNull =>
    .error (g.throwException (jsOrStr message (g.parameterName ++ " cannot be null or undefined.")))
  | .vUndefined =>
    .error (g.throwException (jsOrStr message (g.parameterName ++ " cannot be null or undefined.")))
  | _ => .ok g

/-- Guard.againstWhitespace: re-validates not-null, then requires a string,
then a nonempty trim. -/
def Guard.againstWhitespace (g : Guard) (message : Option String) :
    Except JSError Guard :=
  match g.againstNullOrUndefined message with
  | .error e => .error e
  | .ok _ =>
    match g.value with
    | .vStr s =>
      if (jsTrim s).length = 0 then
        .error (g.throwException (jsOrStr message (g.parameterName ++ " cannot be empty or whitespace.")))
      else .ok g
    | _ =>
      .error (g.throwException (jsOrStr message (g.parameterName ++ " must be a string.")))

/-- Guard.againstEmpty: re-validates not-null, then requires a string, an
array, or a truthy value with a numeric length property, then a length that
is not strictly equal to 0. -/
def Guard.againstEmpty (g : Guard) (message : Option String) :
    Except JSError Guard :=
  match g.againstNullOrUndefined message with
  | .error e => .error e
  | .ok _ =>
    if !(typeofJS g.value = "string" || isArrayJS g.value
        || (jsTruthy g.value && typeofJS (getProp g.value "length") = "number")) then
      .error (g.throwException (jsOrStr message
        (g.parameterName ++ " must be a string, array, or have a length property to check for empty.")))
    else if isNumZero (getProp g.value "length") then
      .error (g.throwException (jsOrStr message (g.parameterName ++ " cannot be empty.")))
    else .ok g

/-- Guard.againstNegative: re-validates not-null, then requires a non-NaN
number, then a value that is not negative. -/
def Guard.againstNegative (g : Guard) (message : Option String) :
    Except JSError Guard :=
  match g.againstNullOrUndefined message with
  | .error e => .error e
  | .ok _ =>
    match g.value with
    | .vNum (.int i) =>
      if i < 0 then
        .error (g.throwException (jsOrStr message (g.parameterName ++ " cannot be negative.")))
      else .ok g
    | _ =>
      .error (g.throwException (jsOrStr message (g.parameterName ++ " must be a valid number.")))

/-- Guard.againstZero: re-validates not-null, then requires a non-NaN number,
then a value that is not strictly equal to 0. -/
def Guard.againstZero (g : Guard) (message : Option String) :
    Except JSError Guard :=
  match g.againstNullOrUndefined message with
  | .error e => .error e
  | .ok _ =>
    match g.value with
    | .vNum (.int i) =>
      if i = 0 then
        .error (g.throwException (jsOrStr message (g.parameterName ++ " cannot be zero.")))
      else .ok g
    | _ =>
      .error (g.throwException (jsOrStr message (g.parameterName ++ " must be a valid number.")))

/-- Guard.isInRange: re-validates not-null, then requires a non-NaN number,
then value < min or value > max triggers the range failure (JavaScript
comparisons, false when a bound is NaN). -/
def Guard.isInRange (g : Guard) (min max : JSNum) (message : Option String) :
    Except JSError Guard :=
  match g.againstNullOrUndefined message with
  | .error e => .error e
  | .ok _ =>
    match g.value with
    | .vNum (.int i) =>
      if jsNumLt (.int i) min || jsNumLt max (.int i) then
        .error (g.throwException (jsOrStr message
          (g.parameterName ++ " must be between " ++ numToString min ++ " and " ++ numToString max ++ ".")))
      else .ok g
    | _ =>
      .error (g.throwException (jsOrStr message (g.parameterName ++ " must be a valid number.")))

/-- Guard.matches: re-validates not-null, then requires a string, then a
regex-test success (the regex modelled as its test predicate). -/
def Guard.matches (g : Guard) (regex : String → Bool) (message : Option String) :
    Except JSError Guard :=
  match g.againstNullOrUndefined message with
  | .error e => .error e
  | .ok _ =>
    match g.value with
    | .vStr s =>
      if !(regex s) then
        .error (g.throwException (jsOrStr message (g.parameterName ++ " does not match the required pattern.")))
      else .ok g
    | _ =>
      .error (g.throwException (jsOrStr message (g.parameterName ++ " must be a string.")))

/-- Guard.isType: compares only the typeof tag, with no null or undefined
pre-check. -/
def Guard.isType (g : Guard) (t : String) (message : Option String) :
    Except JSError Guard :=
  if typeofJS g.value ≠ t then
    .error (g.throwException (jsOrStr message (g.parameterName ++ " must be of type " ++ t ++ ".")))
  else .ok g

/-- The shared failure contract of a check result: either the same guard is
returned, or the raised error is built by throwException from the specific
message, which is the caller override or one of the default messages of the
check. -/
def failsPerContract (g : Guard) (message : Option String) (defaults : List String)
    (r : Except JSError Guard) : Prop :=
  r = Except.ok g ∨ ∃ d, d ∈ defaults ∧ r = Except.error (g.throwException (jsOrStr message d))

/-- Mapper used in concrete examples: doubles a number, as in x => x * 2. -/
def doubleFn : JSValue → JSValue
  | .vNum (.int i) => .vNum (.int (2 * i))
  | v => v

/-- Mapper used in concrete examples: always returns the null sentinel. -/
def constNullFn : JSValue → JSValue :=
  fun _ => JSValue.vNull

/-- The null check either returns the same guard or raises its single default
message (possibly overridden). -/
theorem againstNullOrUndefined_cases (g : Guard) (msg : Option String) :
    g.againstNullOrUndefined msg = Except.ok g ∨
    g.againstNullOrUndefined msg =
      Except.error (g.throwException (jsOrStr msg (g.parameterName ++ " cannot be null or undefined."))) := by
  obtain ⟨v, pn, et⟩ := g
  cases v <;> first
    | exact Or.inl rfl
    | exact Or.inr rfl

/-- The whitespace check observes the shared failure contract. -/
theorem againstWhitespace_contract (g : Guard) (msg : Option String) :
    failsPerContract g msg
      [g.parameterName ++ " cannot be null or undefined.",
       g.parameterName ++ " must be a string.",
       g.parameterName ++ " cannot be empty or whitespace."]
      (g.againstWhitespace msg) := by
  rcases againstNullOrUndefined_cases g msg with h0 | h0
  · rcases hv : g.value with _ | _ | b | n | s | xs | ps | a | _ | i
    case vStr =>
      by_cases hs : (jsTrim s).length = 0
      · exact Or.inr ⟨g.parameterName ++ " cannot be empty or whitespace.", by simp,
          by simp only [Guard.againstWhitespace, h0, hv]; rw [if_pos hs]⟩
      · exact Or.inl (by simp only [Guard.againstWhitespace, h0, hv]; rw [if_neg hs])
    all_goals exact Or.inr ⟨g.parameterName ++ " must be a string.", by simp,
      by simp only [Guard.againstWhitespace, h0, hv]⟩
  · exact Or.inr ⟨g.parameterName ++ " cannot be null or undefined.", by simp,
      by simp only [Guard.againstWhitespace, h0]⟩

/-- The null check observes the shared failure contract. -/
theorem againstNullOrUndefined_contract (g : Guard) (msg : Option String) :
    failsPerContract g msg
      [g.parameterName ++ " cannot be null or undefined."]
      (g.againstNullOrUndefined msg) := by
  rcases againstNullOrUndefined_cases g msg with h0 | h0
  · exact Or.inl h0
  · exact Or.inr ⟨g.parameterName ++ " cannot be null or undefined.", by simp, h0⟩

/-- The emptiness check observes the shared failure contract. -/
theorem againstEmpty_contract (g : Guard) (msg : Option String) :
    failsPerContract g msg
      [g.parameterName ++ " cannot be null or undefined.",
       g.parameterName ++ " must be a string, array, or have a length property to check for empty.",
       g.parameterName ++ " cannot be empty."]
      (g.againstEmpty msg) := by
  rcases againstNullOrUndefined_cases g msg with h0 | h0
  · simp only [Guard.againstEmpty, h0]
    repeat' split
    all_goals first
      | exact Or.inl rfl
      | (right; refine ⟨_, ?_, rfl⟩; simp)
  · exact Or.inr ⟨g.parameterName ++ " cannot be null or undefined.", by simp,
      by simp only [Guard.againstEmpty, h0]⟩

/-- The negativity check observes the shared failure contract. -/
theorem againstNegative_contract (g : Guard) (msg : Option String) :
    failsPerContract g msg
      [g.parameterName ++ " cannot be null or undefined.",
       g.parameterName ++ " must be a valid number.",
       g.parameterName ++ " cannot be negative."]
      (g.againstNegative msg) := by
  rcases againstNullOrUndefined_cases g msg with h0 | h0
  · simp only [Guard.againstNegative, h0]
    repeat' split
    all_goals first
      | exact Or.inl rfl
      | (right; refine ⟨_, ?_, rfl⟩; simp)
  · exact Or.inr ⟨g.parameterName ++ " cannot be null or undefined.", by simp,
      by simp only [Guard.againstNegative, h0]⟩

/-- The zero check observes the shared failure contract. -/
theorem againstZero_contract (g : Guard) (msg : Option String) :
    failsPerContract g msg
      [g.parameterName ++ " cannot be null or undefined.",
       g.parameterName ++ " must be a valid number.",
       g.parameterName ++ " cannot be zero."]
      (g.againstZero msg) := by
  rcases againstNullOrUndefined_cases g msg with h0 | h0
  · simp only [Guard.againstZero, h0]
    repeat' split
    all_goals first
      | exact Or.inl rfl
      | (right; refine ⟨_, ?_, rfl⟩; simp)
  · exact Or.inr ⟨g.parameterName ++ " cannot be null or undefined.", by simp,
      by simp only [Guard.againstZero, h0]⟩

/-- The range check observes the shared failure contract. -/
theorem isInRange_contract (g : Guard) (mn mx : JSNum) (msg : Option String) :
    failsPerContract g msg
      [g.parameterName ++ " cannot be null or undefined.",
       g.parameterName ++ " must be a valid number.",
       g.parameterName ++ " must be between " ++ numToString mn ++ " and " ++ numToString mx ++ "."]
      (g.isInRange mn mx msg) := by
  rcases againstNullOrUndefined_cases g msg with h0 | h0
  · simp only [Guard.isInRange, h0]
    repeat' split
    all_goals first
      | exact Or.inl rfl
      | (right; refine ⟨_, ?_, rfl⟩; simp)
  · exact Or.inr ⟨g.parameterName ++ " cannot be null or undefined.", by simp,
      by simp only [Guard.isInRange, h0]⟩

/-- The regex check observes the shared failure contract. -/
theorem matches_contract (g : Guard) (rgx : String → Bool) (msg : Option String) :
    failsPerContract g msg
      [g.parameterName ++ " cannot be null or undefined.",
       g.parameterName ++ " must be a string.",
       g.parameterName ++ " does not match the required pattern."]
      (g.matches rgx msg) := by
  rcases againstNullOrUndefined_cases g msg with h0 | h0
  · simp only [Guard.matches, h0]
    repeat' split
    all_goals first
      | exact Or.inl rfl
      | (right; refine ⟨_, ?_, rfl⟩; simp)
  · exact Or.inr ⟨g.parameterName ++ " cannot be null or undefined.", by simp,
      by simp only [Guard.matches, h0]⟩

/-- The type check observes the shared failure contract. -/
theorem isType_contract (g : Guard) (t : String) (msg : Option String) :
    failsPerContract g msg
      [g.parameterName ++ " must be of type " ++ t ++ "."]
      (g.isType t msg) := by
  simp only [Guard.isType]
  split
  · right; refine ⟨_, ?_, rfl⟩; simp
  · exact Or.inl rfl

/-- A result observing the failure contract is the same guard or some error. -/
theorem failsPerContract_shape {g : Guard} {msg : Option String} {ds : List String}
    {r : Except JSError Guard} (h : failsPerContract g msg ds r) :
    r = Except.ok g ∨ ∃ e, r = Except.error e := by
  rcases h with h | ⟨d, _, h⟩
  · exact Or.inl h
  · exact Or.inr ⟨_, h⟩

/-- Mapping a non-absent Optional dispatches on the mapper result. -/
theorem map_mk_eq (v : JSValue) (f : JSValue → JSValue) (hv : v ≠ JSValue.vUndefined) :
    (Optional.mk v).map f =
      match f v with
      | .vUndefined => Except.ok Optional.empty
      | .vNull => Except.ok Optional.empty
      | r => Optional.of r := by
  cases v <;> first
    | exact absurd rfl hv
    | rfl

/-- Claim C1, the code evaluated at the failing input: Optional.ofNullable
applied to the null sentinel yields an Optional that reports isPresent as
true, although the claim (and the JSDoc example on ofNullable in the Optional
source) require false; presence compares the slot only against undefined, so
a stored null counts as present.  The undefined half of the claim does hold,
as the second conjunct shows. -/
theorem c1_ofNullable_null_reports_present :
    (Optional.ofNullable JSValue.vNull).isPresent = true ∧
    (Optional.ofNullable JSValue.vUndefined).isPresent = false :=
  ⟨rfl, rfl⟩

/-- Claim C9: an Optional built by ofNullable from null reports isPresent as
true and its value accessor returns null without throwing, yet getOrElse
falls back to the default for every default, because presence is decided by
strict comparison against undefined while getOrElse uses nullish coalescing. -/
theorem c9_held_null_present_but_getOrElse_falls_back :
    ∀ d : JSValue,
      (Optional.ofNullable JSValue.vNull).isPresent = true ∧
      (Optional.ofNullable JSValue.vNull).value = Except.ok JSValue.vNull ∧
      (Optional.ofNullable JSValue.vNull).getOrElse d = d :=
  fun _ => ⟨rfl, rfl, rfl⟩

/-- Claim C5: for every non-sentinel value v, Optional.of v succeeds with an
Optional whose isPresent is true and whose value accessor returns v, while
Optional.of applied to either sentinel always fails. -/
theorem c5_of_spec :
    (∀ v : JSValue, v ≠ JSValue.vNull → v ≠ JSValue.vUndefined →
      Optional.of v = Except.ok (Optional.mk v) ∧
      (Optional.mk v).isPresent = true ∧
      (Optional.mk v).value = Except.ok v) ∧
    Optional.of JSValue.vNull =
      Except.error ⟨ExceptionKind.plainError, "Cannot create Optional.of with undefined or null"⟩ ∧
    Optional.of JSValue.vUndefined =
      Except.error ⟨ExceptionKind.plainError, "Cannot create Optional.of with undefined or null"⟩ := by
  refine ⟨?_, rfl, rfl⟩
  intro v hn hu
  cases v
  case vNull => exact absurd rfl hn
  case vUndefined => exact absurd rfl hu
  all_goals exact ⟨rfl, rfl, rfl⟩

/-- Claim C5 witness at the concrete value 42. -/
theorem c5_of_spec_witness :
    Optional.of (JSValue.vNum (JSNum.int 42)) =
      Except.ok (Optional.mk (JSValue.vNum (JSNum.int 42))) ∧
    (Optional.mk (JSValue.vNum (JSNum.int 42))).isPresent = true ∧
    (Optional.mk (JSValue.vNum (JSNum.int 42))).value = Except.ok (JSValue.vNum (JSNum.int 42)) :=
  c5_of_spec.1 (JSValue.vNum (JSNum.int 42)) (fun h => nomatch h) (fun h => nomatch h)

/-- Claim C3: getOrThrow returns the held value when the Optional is present
and otherwise raises NotFoundException carrying the given message (settled
against the spec-modelled definition, the method being absent from the
Optional sources). -/
theorem c3_getOrThrow_spec :
    ∀ (o : Optional) (m : String),
      (o.isPresent = true → o.getOrThrow m = Except.ok o._value) ∧
      (o.isPresent = false → o.getOrThrow m = Except.error ⟨ExceptionKind.notFound, m⟩) := by
  intro o m
  obtain ⟨v⟩ := o
  cases v <;> simp [Optional.isPresent, Optional.getOrThrow]

/-- Claim C3 witness: the two test-suite scenarios. -/
theorem c3_getOrThrow_witness :
    (Optional.mk (JSValue.vNum (JSNum.int 42))).getOrThrow "Value not found" =
      Except.ok (JSValue.vNum (JSNum.int 42)) ∧
    Optional.empty.getOrThrow "Could not find this value." =
      Except.error ⟨ExceptionKind.notFound, "Could not find this value."⟩ :=
  ⟨(c3_getOrThrow_spec (Optional.mk (JSValue.vNum (JSNum.int 42))) "Value not found").1 rfl,
   (c3_getOrThrow_spec Optional.empty "Could not find this value.").2 rfl⟩

/-- Claim C4: mapping a present Optional applies the mapper to the held value
and yields empty when the result is a sentinel, else an Optional wrapping the
result; mapping an absent Optional yields empty for every mapper (the result
does not depend on the mapper, which is how non-invocation shows up in a pure
embedding). -/
theorem c4_map_spec :
    (∀ (v : JSValue) (f : JSValue → JSValue), v ≠ JSValue.vUndefined →
      ((f v = JSValue.vUndefined ∨ f v = JSValue.vNull) →
        (Optional.mk v).map f = Except.ok Optional.empty) ∧
      (f v ≠ JSValue.vUndefined → f v ≠ JSValue.vNull →
        (Optional.mk v).map f = Except.ok (Optional.mk (f v)))) ∧
    (∀ f : JSValue → JSValue, Optional.empty.map f = Except.ok Optional.empty) := by
  constructor
  · intro v f hv
    have key := map_mk_eq v f hv
    constructor
    · intro h
      rw [key]
      rcases h with h | h <;> rw [h]
    · intro h1 h2
      rw [key]
      rcases hfv : f v with _ | _ | b | n | s | xs | ps | a | _ | i
      · exact absurd hfv h1
      · exact absurd hfv h2
      all_goals rfl
  · exact fun _ => rfl

/-- Claim C4 witness: doubling 5 gives a present 10, mapping to the null
sentinel gives empty. -/
theorem c4_map_spec_witness :
    (Optional.mk (JSValue.vNum (JSNum.int 5))).map doubleFn =
      Except.ok (Optional.mk (JSValue.vNum (JSNum.int 10))) ∧
    (Optional.mk (JSValue.vNum (JSNum.int 5))).map constNullFn = Except.ok Optional.empty :=
  ⟨(c4_map_spec.1 (JSValue.vNum (JSNum.int 5)) doubleFn (fun h => nomatch h)).2
      (fun h => nomatch h) (fun h => nomatch h),
   (c4_map_spec.1 (JSValue.vNum (JSNum.int 5)) constNullFn (fun h => nomatch h)).1 (Or.inr rfl)⟩

/-- Claim C6: on a NaN value each numeric check (againstNegative, againstZero,
isInRange for any bounds) raises with the valid-number message, which
supersedes the check-specific one. -/
theorem c6_nan_valid_number_precedence :
    ∀ g : Guard, g.value = JSValue.vNum JSNum.nan →
      g.againstNegative none =
        Except.error (g.throwException (g.parameterName ++ " must be a valid number.")) ∧
      g.againstZero none =
        Except.error (g.throwException (g.parameterName ++ " must be a valid number.")) ∧
      ∀ mn mx : JSNum, g.isInRange mn mx none =
        Except.error (g.throwException (g.parameterName ++ " must be a valid number.")) := by
  intro g h
  obtain ⟨v, pn, et⟩ := g
  have h2 : v = JSValue.vNum JSNum.nan := h
  subst h2
  exact ⟨rfl, rfl, fun _ _ => rfl⟩

/-- Claim C6 witness: Guard.check on NaN with parameter p, range 1 to 10,
raises the valid-number message, which differs from the range message. -/
theorem c6_nan_valid_number_precedence_witness :
    (Guard.check (JSValue.vNum JSNum.nan) (some "p") none).isInRange
        (JSNum.int 1) (JSNum.int 10) none =
      Except.error ⟨ExceptionKind.illegalArgument, "p must be a valid number. Actual value: null."⟩ ∧
    (Guard.check (JSValue.vNum JSNum.nan) (some "p") none).againstNegative none =
      Except.error ⟨ExceptionKind.illegalArgument, "p must be a valid number. Actual value: null."⟩ ∧
    (Guard.check (JSValue.vNum JSNum.nan) (some "p") none).againstZero none =
      Except.error ⟨ExceptionKind.illegalArgument, "p must be a valid number. Actual value: null."⟩ ∧
    "p must be a valid number. Actual value: null." ≠
      "p must be between 1 and 10. Actual value: null." := by
  have h := c6_nan_valid_number_precedence
    (Guard.check (JSValue.vNum JSNum.nan) (some "p") none) rfl
  exact ⟨h.2.2 (JSNum.int 1) (JSNum.int 10), h.1, h.2.1, by decide⟩

/-- Claim C7: on a null or undefined bound value, every check other than
againstNullOrUndefined and isType raises exactly the null-or-undefined
failure that againstNullOrUndefined itself raises, before testing its own
condition. -/
theorem c7_checks_revalidate_null :
    ∀ (g : Guard) (msg : Option String),
      g.value = JSValue.vNull ∨ g.value = JSValue.vUndefined →
      g.againstNullOrUndefined msg =
        Except.error (g.throwException (jsOrStr msg (g.parameterName ++ " cannot be null or undefined."))) ∧
      g.againstWhitespace msg =
        Except.error (g.throwException (jsOrStr msg (g.parameterName ++ " cannot be null or undefined."))) ∧
      g.againstEmpty msg =
        Except.error (g.throwException (jsOrStr msg (g.parameterName ++ " cannot be null or undefined."))) ∧
      g.againstNegative msg =
        Except.error (g.throwException (jsOrStr msg (g.parameterName ++ " cannot be null or undefined."))) ∧
      g.againstZero msg =
        Except.error (g.throwException (jsOrStr msg (g.parameterName ++ " cannot be null or undefined."))) ∧
      (∀ mn mx : JSNum, g.isInRange mn mx msg =
        Except.error (g.throwException (jsOrStr msg (g.parameterName ++ " cannot be null or undefined.")))) ∧
      (∀ rgx : String → Bool, g.matches rgx msg =
        Except.error (g.throwException (jsOrStr msg (g.parameterName ++ " cannot be null or undefined.")))) := by
  intro g msg h
  obtain ⟨v, pn, et⟩ := g
  rcases h with h | h
  · have h2 : v = JSValue.vNull := h
    subst h2
    exact ⟨rfl, rfl, rfl, rfl, rfl, fun _ _ => rfl, fun _ => rfl⟩
  · have h2 : v = JSValue.vUndefined := h
    subst h2
    exact ⟨rfl, rfl, rfl, rfl, rfl, fun _ _ => rfl, fun _ => rfl⟩

/-- Claim C7 witness: every such check on a null value bound to parameter p
raises the null-or-undefined failure. -/
theorem c7_checks_revalidate_null_witness :
    (Guard.check JSValue.vNull (some "p") none).againstWhitespace none =
      Except.error ⟨ExceptionKind.illegalArgument, "p cannot be null or undefined. Actual value: null."⟩ ∧
    (Guard.check JSValue.vNull (some "p") none).againstEmpty none =
      Except.error ⟨ExceptionKind.illegalArgument, "p cannot be null or undefined. Actual value: null."⟩ ∧
    (Guard.check JSValue.vNull (some "p") none).againstNegative none =
      Except.error ⟨ExceptionKind.illegalArgument, "p cannot be null or undefined. Actual value: null."⟩ ∧
    (Guard.check JSValue.vNull (some "p") none).againstZero none =
      Except.error ⟨ExceptionKind.illegalArgument, "p cannot be null or undefined. Actual value: null."⟩ ∧
    (Guard.check JSValue.vNull (some "p") none).isInRange (JSNum.int 1) (JSNum.int 10) none =
      Except.error ⟨ExceptionKind.illegalArgument, "p cannot be null or undefined. Actual value: null."⟩ ∧
    (Guard.check JSValue.vNull (some "p") none).matches (fun _ => true) none =
      Except.error ⟨ExceptionKind.illegalArgument, "p cannot be null or undefined. Actual value: null."⟩ := by
  have h := c7_checks_revalidate_null (Guard.check JSValue.vNull (some "p") none) none (Or.inl rfl)
  exact ⟨h.2.1, h.2.2.1, h.2.2.2.1, h.2.2.2.2.1,
    h.2.2.2.2.2.1 (JSNum.int 1) (JSNum.int 10), h.2.2.2.2.2.2 (fun _ => true)⟩

/-- Claim C10: isType compares only the typeof tag and performs no null or
undefined pre-check, so Guard.check(null, p).isType(object) and
Guard.check(undefined, p).isType(undefined) return the guard without raising
for every parameter name, exception constructor and message override, the
typeof tag of null being object. -/
theorem c10_isType_null_and_undefined_pass :
    ∀ (pn : Option String) (et : Option ExceptionKind) (msg : Option String),
      (Guard.check JSValue.vNull pn et).isType "object" msg =
        Except.ok (Guard.check JSValue.vNull pn et) ∧
      (Guard.check JSValue.vUndefined pn et).isType "undefined" msg =
        Except.ok (Guard.check JSValue.vUndefined pn et) ∧
      typeofJS JSValue.vNull = "object" :=
  fun _ _ _ => ⟨rfl, rfl, rfl⟩

/-- Claim C8: every check operation either returns the very same guard or
raises an exception, and the guard itself is immutable (the embedding keeps
the bound value, name and exception constructor fixed after construction);
chaining againstNullOrUndefined then againstWhitespace on the non-blank
string Example returns the original guard without raising. -/
theorem c8_checks_return_same_guard_or_raise :
    (∀ (g : Guard) (msg : Option String),
      (g.againstNullOrUndefined msg = Except.ok g ∨
        ∃ e, g.againstNullOrUndefined msg = Except.error e) ∧
      (g.againstWhitespace msg = Except.ok g ∨
        ∃ e, g.againstWhitespace msg = Except.error e) ∧
      (g.againstEmpty msg = Except.ok g ∨
        ∃ e, g.againstEmpty msg = Except.error e) ∧
      (g.againstNegative msg = Except.ok g ∨
        ∃ e, g.againstNegative msg = Except.error e) ∧
      (g.againstZero msg = Except.ok g ∨
        ∃ e, g.againstZero msg = Except.error e) ∧
      (∀ mn mx : JSNum, g.isInRange mn mx msg = Except.ok g ∨
        ∃ e, g.isInRange mn mx msg = Except.error e) ∧
      (∀ rgx : String → Bool, g.matches rgx msg = Except.ok g ∨
        ∃ e, g.matches rgx msg = Except.error e) ∧
      (∀ t : String, g.isType t msg = Except.ok g ∨
        ∃ e, g.isType t msg = Except.error e)) ∧
    ((Guard.check (JSValue.vStr "Example") (some "e") none).againstNullOrUndefined none).bind
        (fun g2 => g2.againstWhitespace none) =
      Except.ok (Guard.check (JSValue.vStr "Example") (some "e") none) := by
  constructor
  · intro g msg
    exact ⟨failsPerContract_shape (againstNullOrUndefined_contract g msg),
      failsPerContract_shape (againstWhitespace_contract g msg),
      failsPerContract_shape (againstEmpty_contract g msg),
      failsPerContract_shape (againstNegative_contract g msg),
      failsPerContract_shape (againstZero_contract g msg),
      fun mn mx => failsPerContract_shape (isInRange_contract g mn mx msg),
      fun rgx => failsPerContract_shape (matches_contract g rgx msg),
      fun t => failsPerContract_shape (isType_contract g t msg)⟩
  · rfl

/-- Claim C2, counterexample to the claim as stated: when the bound value is
undefined, JSON-serialization yields undefined and the template interpolates
the literal token undefined, not the null token the claim requires; the
repository test suite asserts the same text. -/
theorem c2_failure_message_counterexample :
    (Guard.check JSValue.vUndefined (some "p") none).againstNullOrUndefined none =
      Except.error ⟨ExceptionKind.illegalArgument,
        "p cannot be null or undefined. Actual value: undefined."⟩ ∧
    "p cannot be null or undefined. Actual value: undefined." ≠
      "p cannot be null or undefined. Actual value: null." :=
  ⟨rfl, by decide⟩

/-- Claim C2 as amended: whenever a check fails on a value whose JSON
serialization does not throw, the raised error carries the configured
exception kind (the constructor given to Guard.check, defaulting to
IllegalArgumentException, a custom kind being distinct from the default) and
its message is the specific message (caller override or the default
parameterName-plus-reason text of the check) followed by the Actual value
template: the JSON serialization, or the literal token undefined when
serialization yields undefined, then a final period. -/
theorem c2_failure_contract :
    (∀ (g : Guard) (m : String), stringifyOk g.value →
      g.throwException m =
        ⟨g.exceptionType, m ++ " Actual value: " ++ actualToken g.value ++ "."⟩) ∧
    (∀ (v : JSValue) (pn : Option String) (k : ExceptionKind),
      (Guard.check v pn (some k)).exceptionType = k) ∧
    (∀ (v : JSValue) (pn : Option String),
      (Guard.check v pn none).exceptionType = ExceptionKind.illegalArgument) ∧
    (∀ nm : String, ExceptionKind.custom nm ≠ ExceptionKind.illegalArgument) ∧
    (∀ (g : Guard) (msg : Option String),
      failsPerContract g msg
        [g.parameterName ++ " cannot be null or undefined."]
        (g.againstNullOrUndefined msg) ∧
      failsPerContract g msg
        [g.parameterName ++ " cannot be null or undefined.",
         g.parameterName ++ " must be a string.",
         g.parameterName ++ " cannot be empty or whitespace."]
        (g.againstWhitespace msg) ∧
      failsPerContract g msg
        [g.parameterName ++ " cannot be null or undefined.",
         g.parameterName ++ " must be a string, array, or have a length property to check for empty.",
         g.parameterName ++ " cannot be empty."]
        (g.againstEmpty msg) ∧
      failsPerContract g msg
        [g.parameterName ++ " cannot be null or undefined.",
         g.parameterName ++ " must be a valid number.",
         g.parameterName ++ " cannot be negative."]
        (g.againstNegative msg) ∧
      failsPerContract g msg
        [g.parameterName ++ " cannot be null or undefined.",
         g.parameterName ++ " must be a valid number.",
         g.parameterName ++ " cannot be zero."]
        (g.againstZero msg) ∧
      (∀ mn mx : JSNum, failsPerContract g msg
        [g.parameterName ++ " cannot be null or undefined.",
         g.parameterName ++ " must be a valid number.",
         g.parameterName ++ " must be between " ++ numToString mn ++ " and " ++ numToString mx ++ "."]
        (g.isInRange mn mx msg)) ∧
      (∀ rgx : String → Bool, failsPerContract g msg
        [g.parameterName ++ " cannot be null or undefined.",
         g.parameterName ++ " must be a string.",
         g.parameterName ++ " does not match the required pattern."]
        (g.matches rgx msg)) ∧
      (∀ t : String, failsPerContract g msg
        [g.parameterName ++ " must be of type " ++ t ++ "."]
        (g.isType t msg))) := by
  refine ⟨?_, fun _ _ _ => rfl, fun _ _ => rfl, fun nm h => ExceptionKind.noConfusion h, ?_⟩
  · intro g m h
    obtain ⟨o, ho⟩ := h
    simp [Guard.throwException, actualToken, ho]
  · intro g msg
    exact ⟨againstNullOrUndefined_contract g msg,
      againstWhitespace_contract g msg,
      againstEmpty_contract g msg,
      againstNegative_contract g msg,
      againstZero_contract g msg,
      fun mn mx => isInRange_contract g mn mx msg,
      fun rgx => matches_contract g rgx msg,
      fun t => isType_contract g t msg⟩

/-- Claim C2 witness: the failure shape evaluated at the concrete value 7
bound to parameter p with the default exception constructor. -/
theorem c2_failure_contract_witness :
    (Guard.check (JSValue.vNum (JSNum.int 7)) (some "p") none).throwException "p cannot be zero." =
      ⟨ExceptionKind.illegalArgument, "p cannot be zero. Actual value: 7."⟩ :=
  c2_failure_contract.1 (Guard.check (JSValue.vNum (JSNum.int 7)) (some "p") none)
    "p cannot be zero." ⟨some "7", rfl⟩

end DddStd
